import Mathlib

/-!
Shallow embedding of the dexo-docs tracker server (src/index.js): a small
Express application exposing a token-authenticated CRUD API over three
PostgreSQL tables (docs_reviews, docs_issues, docs_gaps).

Strings are modelled by Lean String; the JavaScript string primitives used
by the source (split, trim, startsWith, slice) are modelled structurally
over the character list so that they compute in the kernel.  JavaScript
undefined is modelled by Option.none, SQL NULL by Option.none in row
fields, and timestamps (NOW()) by a Nat parameter supplied to each handler.
-/

namespace DocsTracker

/-- Model of the JavaScript String.prototype.split with a one-character
separator: accumulates the current segment and emits it at each separator.
Splitting never yields an empty list (an empty string yields one empty
segment), as in JavaScript. -/
def jsSplitAux (sep : Char) : List Char → List Char → List (List Char)
  | [], acc => [acc.reverse]
  | c :: rest, acc =>
    if c = sep then acc.reverse :: jsSplitAux sep rest []
    else jsSplitAux sep rest (c :: acc)

/-- JavaScript s.split(sep) for a single-character separator. -/
def jsSplit (sep : Char) (s : String) : List String :=
  (jsSplitAux sep s.toList []).map String.mk

/-- JavaScript s.trim(): strip whitespace from both ends. -/
def jsTrim (s : String) : String :=
  String.mk (((s.toList.dropWhile Char.isWhitespace).reverse.dropWhile
    Char.isWhitespace).reverse)

/-- JavaScript s.startsWith(p). -/
def jsStartsWith (p s : String) : Bool :=
  p.toList.isPrefixOf s.toList

/-- JavaScript s.slice(n) for nonnegative n. -/
def jsSliceFrom (n : Nat) (s : String) : String :=
  String.mk (s.toList.drop n)

/-- Cookie parser middleware (src/index.js lines 20-30).  The raw Cookie
header is split on the semicolon; each segment is trimmed and split on
every equals sign, and the destructuring pattern takes the first
element as the name and the second (or undefined) as the value.  The
result is the ordered list of assignments performed on req.cookies. -/
def parseCookies (header : String) : List (String × Option String) :=
  (jsSplit ';' header).map fun cookie =>
    match jsSplit '=' (jsTrim cookie) with
    | [] => ("", none)
    | [n] => (n, none)
    | n :: v :: _ => (n, some v)

/-- Reading a property of the req.cookies object after the assignments in
order: a later assignment to the same name overwrites an earlier one, and
an absent property reads as undefined (none), just like a property that
was assigned undefined. -/
def cookieGet (assigns : List (String × Option String)) (name : String) :
    Option String :=
  ((assigns.reverse).find? (fun p => p.1 == name)).bind (fun p => p.2)

/-- An inbound HTTP request, restricted to the parts the auth gate reads:
the Authorization header and the raw Cookie header (each possibly
absent). -/
structure Request where
  authorization : Option String
  cookieHeader : Option String
deriving DecidableEq

/-- The req.cookies object after the cookie parser middleware ran: empty
when no Cookie header is present. -/
def requestCookies (req : Request) : List (String × Option String) :=
  match req.cookieHeader with
  | none => []
  | some h => parseCookies h

/-- The app_token cookie value presented by a request (undefined when
absent). -/
def cookieToken (req : Request) : Option String :=
  cookieGet (requestCookies req) "app_token"

/-- The bearer credential presented by a request: the Authorization header
after the Bearer prefix, when that header is present and carries the
prefix. -/
def bearerToken (req : Request) : Option String :=
  req.authorization.bind fun h =>
    if jsStartsWith "Bearer " h then some (jsSliceFrom 7 h) else none

/-- The requireAuth middleware decision (src/index.js lines 44-55).
appToken is process.env.APP_TOKEN, undefined when the variable is unset.
The bearer branch compares authHeader.slice(7) with APP_TOKEN using
strict equality (a string never strictly equals undefined); the cookie
branch compares req.cookies.app_token with APP_TOKEN, where undefined
strictly equals undefined. -/
def requireAuth (appToken : Option String) (req : Request) : Bool :=
  (match req.authorization with
   | some h => jsStartsWith "Bearer " h && (some (jsSliceFrom 7 h) == appToken)
   | none => false)
  || (cookieToken req == appToken)

/-- The JSON error body sent by requireAuth on rejection. -/
structure ErrorBody where
  error : String
deriving DecidableEq

/-- Outcome of running a route guarded by requireAuth: either the handler
ran and produced a body, or the middleware replied with an error status
and body without invoking the handler. -/
inductive ApiResult (α : Type) where
  | ok (body : α)
  | err (status : Nat) (body : ErrorBody)
deriving DecidableEq

/-- Running an API route behind requireAuth: on a passing credential the
downstream handler runs on the request; otherwise the middleware responds
401 with the Unauthorized JSON body and the handler is never invoked. -/
def runAuthed {α : Type} (appToken : Option String) (req : Request)
    (handler : Request → α) : ApiResult α :=
  if requireAuth appToken req then .ok (handler req)
  else .err 401 ⟨"Unauthorized"⟩

/-- A row of docs_reviews (schema at src/index.js lines 179-185): doc_slug
is NOT NULL, doc_title and notes are nullable, and reviewed_at is set by
the insert. -/
structure Review where
  id : Nat
  doc_slug : String
  doc_title : Option String
  notes : Option String
  reviewed_at : Nat
deriving DecidableEq

/-- A row of docs_issues (schema at src/index.js lines 189-200).  The
status column is nullable (DEFAULT does not imply NOT NULL), and a PATCH
with an absent status field stores NULL. -/
structure Issue where
  id : Nat
  doc_slug : Option String
  doc_title : Option String
  issue_type : String
  description : String
  suggested_fix : Option String
  status : Option String
  resolution_notes : Option String
  created_at : Nat
  resolved_at : Option Nat
deriving DecidableEq

/-- A row of docs_gaps (schema at src/index.js lines 204-213). -/
structure Gap where
  id : Nat
  ticket_id : Option String
  ticket_subject : Option String
  description : String
  suggested_doc : Option String
  status : Option String
  doc_created_slug : Option String
  created_at : Nat
deriving DecidableEq

/-- A VARCHAR(limit) parameter is accepted when it is NULL or no longer
than the limit; PostgreSQL rejects longer values with an error rather
than truncating. -/
def varcharOk (limit : Nat) : Option String → Bool
  | none => true
  | some s => s.length ≤ limit

/-- Request body for POST /api/reviews; the handler destructures exactly
doc_slug, doc_title and notes, each possibly absent. -/
structure ReviewBody where
  doc_slug : Option String
  doc_title : Option String
  notes : Option String
deriving DecidableEq

/-- Request body for POST /api/issues.  The handler destructures only
doc_slug, doc_title, issue_type, description and suggested_fix; a status
or created_at field supplied by the client is carried here to show it is
ignored. -/
structure IssueBody where
  doc_slug : Option String
  doc_title : Option String
  issue_type : Option String
  description : Option String
  suggested_fix : Option String
  status : Option String
  created_at : Option Nat
deriving DecidableEq

/-- Request body for PATCH /api/issues/:id; an absent field is passed to
the statement as NULL. -/
structure IssuePatchBody where
  status : Option String
  resolution_notes : Option String
deriving DecidableEq

/-- Request body for POST /api/gaps, with the ignored client-supplied
status and created_at fields carried as for IssueBody. -/
structure GapBody where
  ticket_id : Option String
  ticket_subject : Option String
  description : Option String
  suggested_doc : Option String
  status : Option String
  created_at : Option Nat
deriving DecidableEq

/-- Request body for PATCH /api/gaps/:id. -/
structure GapPatchBody where
  status : Option String
  doc_created_slug : Option String
deriving DecidableEq

/-- Descending reviewed_at order used by ORDER BY reviewed_at DESC. -/
def reviewNewer (a b : Review) : Prop := b.reviewed_at ≤ a.reviewed_at

instance : DecidableRel reviewNewer := fun _ _ => Nat.decLe _ _

instance : IsTotal Review reviewNewer :=
  ⟨fun a b => le_total b.reviewed_at a.reviewed_at⟩

instance : IsTrans Review reviewNewer :=
  ⟨fun _ _ _ h1 h2 => le_trans h2 h1⟩

/-- Descending created_at order used by ORDER BY created_at DESC on
docs_issues. -/
def issueNewer (a b : Issue) : Prop := b.created_at ≤ a.created_at

instance : DecidableRel issueNewer := fun _ _ => Nat.decLe _ _

instance : IsTotal Issue issueNewer :=
  ⟨fun a b => le_total b.created_at a.created_at⟩

instance : IsTrans Issue issueNewer :=
  ⟨fun _ _ _ h1 h2 => le_trans h2 h1⟩

/-- Descending created_at order used by ORDER BY created_at DESC on
docs_gaps. -/
def gapNewer (a b : Gap) : Prop := b.created_at ≤ a.created_at

instance : DecidableRel gapNewer := fun _ _ => Nat.decLe _ _

instance : IsTotal Gap gapNewer :=
  ⟨fun a b => le_total b.created_at a.created_at⟩

instance : IsTrans Gap gapNewer :=
  ⟨fun _ _ _ h1 h2 => le_trans h2 h1⟩

/-- GET /api/reviews (src/index.js lines 60-63): every row ordered by
reviewed_at descending. -/
def listReviews (db : List Review) : List Review :=
  List.insertionSort reviewNewer db

/-- POST /api/reviews (src/index.js lines 66-73): INSERT with
reviewed_at = NOW() RETURNING the created row.  Fails (surfacing a
database error) when doc_slug is NULL or a VARCHAR limit is exceeded. -/
def createReview (db : List Review) (newId now : Nat) (body : ReviewBody) :
    Option (List Review × Review) :=
  match body.doc_slug with
  | none => none
  | some slug =>
    if varcharOk 255 (some slug) && varcharOk 500 body.doc_title then
      let row : Review :=
        { id := newId, doc_slug := slug, doc_title := body.doc_title,
          notes := body.notes, reviewed_at := now }
      some (db ++ [row], row)
    else none

/-- GET /api/reviews/:slug (src/index.js lines 76-82): the first row of
the slug matches ordered by reviewed_at descending (LIMIT 1), with
rows[0] replaced by null via the or-null fallback; always a 200
response. -/
def apiReviewBySlug (db : List Review) (slug : String) : Nat × Option Review :=
  (200,
    (List.insertionSort reviewNewer
      (db.filter fun r => r.doc_slug == slug)).head?)

/-- The effective status filter of the list handlers: req.query.status
with the or-default, so an absent or empty value falls back to open. -/
def effectiveStatus (q : Option String) : String :=
  match q with
  | none => "open"
  | some s => if s = "" then "open" else s

/-- GET /api/issues (src/index.js lines 85-94): status filter defaulting
to open, with the literal value all removing the WHERE clause; rows
ordered by created_at descending. -/
def listIssues (db : List Issue) (q : Option String) : List Issue :=
  let status := effectiveStatus q
  if status = "all" then List.insertionSort issueNewer db
  else List.insertionSort issueNewer
    (db.filter fun r => r.status == some status)

/-- POST /api/issues (src/index.js lines 97-105): INSERT with status
forced to the literal open and created_at = NOW(), RETURNING the created
row.  Fails when a NOT NULL column (issue_type, description) is absent or
a VARCHAR limit is exceeded. -/
def createIssue (db : List Issue) (newId now : Nat) (body : IssueBody) :
    Option (List Issue × Issue) :=
  match body.issue_type, body.description with
  | some it, some desc =>
    if varcharOk 255 body.doc_slug && varcharOk 500 body.doc_title &&
        varcharOk 50 (some it) then
      let row : Issue :=
        { id := newId, doc_slug := body.doc_slug, doc_title := body.doc_title,
          issue_type := it, description := desc,
          suggested_fix := body.suggested_fix, status := some "open",
          resolution_notes := none, created_at := now, resolved_at := none }
      some (db ++ [row], row)
    else none
  | _, _ => none

/-- PATCH /api/issues/:id (src/index.js lines 108-116): sets status and
resolution_notes from the body, and splices resolved_at = NOW() into the
statement exactly when the new status is the literal resolved or
dismissed, NULL otherwise; RETURNING the updated row, undefined when the
id matches no row.  Fails when the status exceeds its VARCHAR limit. -/
def updateIssue (db : List Issue) (idArg now : Nat) (body : IssuePatchBody) :
    Option (List Issue × Option Issue) :=
  if varcharOk 20 body.status then
    let resolved_at : Option Nat :=
      if body.status == some "resolved" || body.status == some "dismissed"
      then some now else none
    let db2 := db.map fun r =>
      if r.id = idArg then
        { r with status := body.status,
                 resolution_notes := body.resolution_notes,
                 resolved_at := resolved_at }
      else r
    some (db2, db2.find? fun r => r.id = idArg)
  else none

/-- GET /api/gaps (src/index.js lines 119-128): same filter semantics as
GET /api/issues, ordered by created_at descending. -/
def listGaps (db : List Gap) (q : Option String) : List Gap :=
  let status := effectiveStatus q
  if status = "all" then List.insertionSort gapNewer db
  else List.insertionSort gapNewer
    (db.filter fun r => r.status == some status)

/-- POST /api/gaps (src/index.js lines 131-139): INSERT with status
forced to the literal open and created_at = NOW(), RETURNING the created
row. -/
def createGap (db : List Gap) (newId now : Nat) (body : GapBody) :
    Option (List Gap × Gap) :=
  match body.description with
  | some desc =>
    if varcharOk 100 body.ticket_id && varcharOk 500 body.ticket_subject &&
        varcharOk 255 body.suggested_doc then
      let row : Gap :=
        { id := newId, ticket_id := body.ticket_id,
          ticket_subject := body.ticket_subject, description := desc,
          suggested_doc := body.suggested_doc, status := some "open",
          doc_created_slug := none, created_at := now }
      some (db ++ [row], row)
    else none
  | none => none

/-- PATCH /api/gaps/:id (src/index.js lines 142-149): sets status and
doc_created_slug, with no derived timestamp logic. -/
def updateGap (db : List Gap) (idArg : Nat) (body : GapPatchBody) :
    Option (List Gap × Option Gap) :=
  if varcharOk 20 body.status && varcharOk 255 body.doc_created_slug then
    let db2 := db.map fun r =>
      if r.id = idArg then
        { r with status := body.status,
                 doc_created_slug := body.doc_created_slug }
      else r
    some (db2, db2.find? fun r => r.id = idArg)
  else none

/-- The result of SELECT status, COUNT(*) GROUP BY status folded into a
JavaScript object: one key per distinct status value with its count. -/
def statusCounts (statuses : List (Option String)) :
    List (Option String × Nat) :=
  statuses.dedup.map fun s => (s, statuses.count s)

/-- The GET /api/stats response shape (src/index.js lines 152-167). -/
structure StatsResponse where
  issues : List (Option String × Nat)
  gaps : List (Option String × Nat)
  reviews_total : Nat
  last_review : Option Nat
deriving DecidableEq

/-- GET /api/stats: grouped counts of issues and gaps by status, and the
aggregate row over docs_reviews (COUNT(*) and MAX(reviewed_at), the
latter NULL on an empty table). -/
def apiStats (issuesDb : List Issue) (gapsDb : List Gap)
    (reviewsDb : List Review) : StatsResponse :=
  { issues := statusCounts (issuesDb.map (·.status))
    gaps := statusCounts (gapsDb.map (·.status))
    reviews_total := reviewsDb.length
    last_review := (reviewsDb.map (·.reviewed_at)).max? }

/-- The three tables created by setupDb. -/
inductive TableName where
  | reviews
  | issues
  | gaps
deriving DecidableEq

/-- Schema state: the set of tables that exist, as a list. -/
structure DbState where
  tables : List TableName
deriving DecidableEq

/-- One CREATE TABLE IF NOT EXISTS statement: ok records whether the
query succeeds against the database; on success the table exists
afterwards, on failure the awaited promise rejects. -/
def createTableIfNotExists (t : TableName) (ok : Bool) (db : DbState) :
    Option DbState :=
  if ok then
    some ⟨if t ∈ db.tables then db.tables else db.tables ++ [t]⟩
  else none

/-- setupDb (src/index.js lines 177-217): the three CREATE TABLE
statements awaited in sequence; a rejection anywhere aborts the rest. -/
def setupDb (okReviews okIssues okGaps : Bool) (db : DbState) :
    Option DbState :=
  (createTableIfNotExists .reviews okReviews db).bind fun db1 =>
    (createTableIfNotExists .issues okIssues db1).bind fun db2 =>
      createTableIfNotExists .gaps okGaps db2

/-- The process state after startup: the schema and whether app.listen
was called. -/
structure ServerState where
  db : DbState
  listening : Bool
deriving DecidableEq

/-- Startup (src/index.js lines 220-222): setupDb().then(app.listen) —
the listen call runs only in the fulfilled continuation of setupDb, so a
rejected setup never reaches it and the process serves no traffic. -/
def startup (okReviews okIssues okGaps : Bool) (db0 : DbState) :
    Option ServerState :=
  (setupDb okReviews okIssues okGaps db0).map fun db =>
    { db := db, listening := true }

/-! Concrete fixtures used by witness theorems. -/

/-- An open issue row used as a witness fixture. -/
def issueW : Issue :=
  ⟨1, none, none, "typo", "desc", none, some "open", none, 5, none⟩

/-- The fixture row after PATCH with status resolved at time 10. -/
def issueW1 : Issue :=
  ⟨1, none, none, "typo", "desc", none, some "resolved", some "n", 5, some 10⟩

/-- The fixture row after a subsequent PATCH with status open at time 20. -/
def issueW2 : Issue :=
  ⟨1, none, none, "typo", "desc", none, some "open", some "m", 5, none⟩

/-- A resolved issue row used as a witness fixture. -/
def issueW3 : Issue :=
  ⟨2, none, none, "gap", "other", none, some "resolved", none, 9, some 11⟩

/-- A small docs_issues table fixture. -/
def issuesDbW : List Issue := [issueW, issueW3]

/-- A small docs_gaps table fixture. -/
def gapsDbW : List Gap :=
  [⟨1, some "T-1", none, "missing page", none, some "open", none, 3⟩]

/-- Two review rows for the same slug, the second more recent. -/
def reviewW1 : Review := ⟨1, "getting-started", none, none, 4⟩

/-- The more recent review row fixture for the same slug. -/
def reviewW2 : Review := ⟨2, "getting-started", some "GS", none, 9⟩

/-- A small docs_reviews table fixture. -/
def reviewsDbW : List Review := [reviewW1, reviewW2]

/-- A POST /api/issues body fixture that also smuggles client-supplied
status and created_at fields. -/
def ibW : IssueBody :=
  ⟨none, none, some "typo", some "desc", none, some "hacked", some 99⟩

/-- The row created from ibW at id 1 and time 7. -/
def issueRowW : Issue :=
  ⟨1, none, none, "typo", "desc", none, some "open", none, 7, none⟩

/-- A POST /api/gaps body fixture that also smuggles client-supplied
status and created_at fields. -/
def gbW : GapBody :=
  ⟨some "T-9", none, some "missing", none, some "hacked", some 99⟩

/-- The row created from gbW at id 1 and time 7. -/
def gapRowW : Gap :=
  ⟨1, some "T-9", none, "missing", none, some "open", none, 7⟩

/-- A POST /api/reviews body fixture. -/
def rbW : ReviewBody := ⟨some "getting-started", some "GS", some "ok"⟩

/-- The row created from rbW at id 1 and time 7. -/
def reviewRowW : Review := ⟨1, "getting-started", some "GS", some "ok", 7⟩

/-! Theorems. -/

/-- The requireAuth decision with a configured secret passes exactly the
requests presenting the secret as a bearer credential or as the app_token
cookie. -/
theorem requireAuth_some_iff (secret : String) (req : Request) :
    requireAuth (some secret) req = true ↔
      bearerToken req = some secret ∨ cookieToken req = some secret := by
  unfold requireAuth bearerToken
  cases hA : req.authorization with
  | none => simp
  | some h =>
    by_cases hs : jsStartsWith "Bearer " h = true
    · simp [hs]
    · simp [hs, Bool.eq_false_iff.mpr hs]

/-- C1: for a request to an /api/* route guarded by requireAuth with a
configured secret, the request reaches the downstream handler exactly
when the presented bearer token or app_token cookie equals the secret;
any other request (missing credential, empty string, different case)
receives a 401 response with the JSON body carrying error Unauthorized,
and no handler is ever invoked. -/
theorem auth_gate_spec (secret : String) (req : Request) {α : Type}
    (handler : Request → α) :
    (runAuthed (some secret) req handler = .ok (handler req) ↔
      bearerToken req = some secret ∨ cookieToken req = some secret)
  ∧ (bearerToken req ≠ some secret → cookieToken req ≠ some secret →
      ∀ g : Request → α,
        runAuthed (some secret) req g = .err 401 ⟨"Unauthorized"⟩) := by
  have hiff := requireAuth_some_iff secret req
  constructor
  · constructor
    · intro hok
      apply hiff.mp
      cases hb : requireAuth (some secret) req
      · unfold runAuthed at hok
        rw [hb] at hok
        simp at hok
      · rfl
    · intro hp
      unfold runAuthed
      rw [hiff.mpr hp]
      simp
  · intro h1 h2 g
    have hb : requireAuth (some secret) req = false := by
      cases hb : requireAuth (some secret) req
      · rfl
      · rcases hiff.mp hb with h | h
        · exact absurd h h1
        · exact absurd h h2
    unfold runAuthed
    rw [hb]
    simp

/-- Witness for C1: the secret presented as a bearer token is accepted;
the secret with different case, and an empty cookie value, are rejected
with the 401 Unauthorized response. -/
theorem auth_gate_spec_witness :
    runAuthed (some "s3cret") ⟨some "Bearer s3cret", none⟩
      (fun _ => (0 : Nat)) = .ok 0
  ∧ runAuthed (some "s3cret") ⟨some "Bearer S3CRET", none⟩
      (fun _ => (0 : Nat)) = .err 401 ⟨"Unauthorized"⟩
  ∧ runAuthed (some "s3cret") ⟨none, some "app_token="⟩
      (fun _ => (0 : Nat)) = .err 401 ⟨"Unauthorized"⟩ :=
  ⟨(auth_gate_spec "s3cret" ⟨some "Bearer s3cret", none⟩
      (fun _ => (0 : Nat))).1.mpr (Or.inl (by decide)),
   (auth_gate_spec "s3cret" ⟨some "Bearer S3CRET", none⟩
      (fun _ => (0 : Nat))).2 (by decide) (by decide) (fun _ => (0 : Nat)),
   (auth_gate_spec "s3cret" ⟨none, some "app_token="⟩
      (fun _ => (0 : Nat))).2 (by decide) (by decide) (fun _ => (0 : Nat))⟩

/-- C2 counterexample: on the header app_token=a=b the parser does not
assign the value a=b (everything after the first equals sign) to the
app_token cookie. -/
theorem cookie_value_counterexample :
    cookieGet (parseCookies "app_token=a=b") "app_token" ≠ some "a=b" := by
  decide

/-- C2 amended: the parser splits the header on the semicolon and splits
each trimmed segment on every equals sign; the assigned name is the part
before the first equals sign and the assigned value is the part between
the first and second (text after a second equals sign is dropped), so
app_token=a=b is parsed with value a. -/
theorem cookie_split_amended :
    (∀ header : String,
      parseCookies header = (jsSplit ';' header).map fun seg =>
        ((jsSplit '=' (jsTrim seg)).headD "",
         (jsSplit '=' (jsTrim seg))[1]?))
  ∧ cookieGet (parseCookies "app_token=a=b") "app_token" = some "a" := by
  constructor
  · intro header
    unfold parseCookies
    apply List.map_congr_left
    intro seg _
    cases h : jsSplit '=' (jsTrim seg) with
    | nil => simp [h]
    | cons n rest => cases rest <;> simp [h]
  · decide

/-- C10: with APP_TOKEN unset (the process-wide secret undefined), the
bearer branch can never match, and a request carrying no app_token
cookie satisfies the cookie comparison because the undefined lookup
strictly equals the undefined secret; such a request passes the gate and
reaches the handler. -/
theorem no_token_bypass {α : Type} (req : Request) (handler : Request → α)
    (hc : cookieToken req = none) :
    runAuthed none req handler = .ok (handler req) := by
  unfold runAuthed requireAuth
  cases hA : req.authorization <;> simp [hc]

/-- Witness for C10: with no configured secret, a request with an
arbitrary bearer guess and a cookie header lacking app_token passes the
gate. -/
theorem no_token_bypass_witness :
    runAuthed none ⟨some "Bearer guess", some "other=1"⟩
      (fun _ => (0 : Nat)) = .ok 0 :=
  no_token_bypass ⟨some "Bearer guess", some "other=1"⟩ _ (by decide)

/-- Shape of a successful PATCH /api/issues/:id: every row matching the
id carries the supplied status and resolution_notes, with resolved_at
recomputed from the new status alone, and the returned row is the
find-by-id over the updated table. -/
theorem updateIssue_row_fields (db : List Issue) (idArg now : Nat)
    (body : IssuePatchBody) (db2 : List Issue) (ret : Option Issue)
    (h : updateIssue db idArg now body = some (db2, ret)) :
    (∀ r ∈ db2, r.id = idArg →
      r.status = body.status ∧ r.resolution_notes = body.resolution_notes ∧
      r.resolved_at =
        (if body.status = some "resolved" ∨ body.status = some "dismissed"
         then some now else none))
  ∧ ret = db2.find? (fun r => r.id = idArg) := by
  unfold updateIssue at h
  split at h
  · dsimp only at h
    rw [Option.some.injEq, Prod.mk.injEq] at h
    obtain ⟨hdb, hret⟩ := h
    subst hdb
    subst hret
    refine ⟨?_, rfl⟩
    intro r hr hid
    rw [List.mem_map] at hr
    obtain ⟨orig, _, rfl⟩ := hr
    by_cases horig : orig.id = idArg
    · rw [if_pos horig]
      refine ⟨rfl, rfl, ?_⟩
      by_cases hres : body.status = some "resolved" ∨
          body.status = some "dismissed"
      · rw [if_pos hres]
        rcases hres with hres | hres <;> simp [hres]
      · rw [if_neg hres]
        push_neg at hres
        simp [hres.1, hres.2]
    · rw [if_neg horig] at hid
      exact absurd hid horig
  · exact absurd h (by simp)

/-- C3: a successful PATCH /api/issues/:id with body fields status and
resolution_notes sets both columns on the matching row, and sets
resolved_at to now exactly when the new status is resolved or dismissed
and to NULL otherwise; the returned row is a matching row of the updated
table; and because resolved_at is recomputed on every update, a later
PATCH with status open on the same id clears a previously set
resolved_at. -/
theorem patch_issue_resolved_at (db : List Issue) (idArg now : Nat)
    (body : IssuePatchBody) (db2 : List Issue) (ret : Option Issue)
    (h : updateIssue db idArg now body = some (db2, ret)) :
    (∀ r ∈ db2, r.id = idArg →
      r.status = body.status ∧ r.resolution_notes = body.resolution_notes ∧
      r.resolved_at =
        (if body.status = some "resolved" ∨ body.status = some "dismissed"
         then some now else none))
  ∧ (∀ r, ret = some r → r ∈ db2 ∧ r.id = idArg)
  ∧ (∀ (now2 : Nat) (notes2 : Option String) (db3 : List Issue)
      (ret2 : Option Issue),
      updateIssue db2 idArg now2 ⟨some "open", notes2⟩ = some (db3, ret2) →
      ∀ r ∈ db3, r.id = idArg → r.resolved_at = none) := by
  obtain ⟨hfields, hret⟩ := updateIssue_row_fields db idArg now body db2 ret h
  refine ⟨hfields, ?_, ?_⟩
  · intro r hr
    rw [hret] at hr
    have hp := List.find?_some hr
    exact ⟨List.mem_of_find?_eq_some hr, of_decide_eq_true hp⟩
  · intro now2 notes2 db3 ret2 h2 r hr hid
    have h3 := (updateIssue_row_fields db2 idArg now2 ⟨some "open", notes2⟩
      db3 ret2 h2).1 r hr hid
    simpa using h3.2.2

/-- Witness for C3: patching the open fixture row to resolved at time 10
stores resolved_at 10; the subsequent patch back to open at time 20
clears it. -/
theorem patch_issue_resolved_at_witness :
    updateIssue [issueW] 1 10 ⟨some "resolved", some "n"⟩ =
      some ([issueW1], some issueW1)
  ∧ issueW1.status = some "resolved"
  ∧ issueW1.resolution_notes = some "n"
  ∧ issueW1.resolved_at = some 10
  ∧ updateIssue [issueW1] 1 20 ⟨some "open", some "m"⟩ =
      some ([issueW2], some issueW2)
  ∧ issueW2.resolved_at = none :=
  ⟨by decide,
   by
    have h := (patch_issue_resolved_at [issueW] 1 10 ⟨some "resolved", some "n"⟩
      [issueW1] (some issueW1) (by decide)).1 issueW1 (by decide) (by decide)
    exact h.1,
   by
    have h := (patch_issue_resolved_at [issueW] 1 10 ⟨some "resolved", some "n"⟩
      [issueW1] (some issueW1) (by decide)).1 issueW1 (by decide) (by decide)
    exact h.2.1,
   by
    have h := (patch_issue_resolved_at [issueW] 1 10 ⟨some "resolved", some "n"⟩
      [issueW1] (some issueW1) (by decide)).1 issueW1 (by decide) (by decide)
    simpa using h.2.2,
   by decide,
   by
    have h := (patch_issue_resolved_at [issueW] 1 10 ⟨some "resolved", some "n"⟩
      [issueW1] (some issueW1) (by decide)).2.2 20 (some "m") [issueW2]
      (some issueW2) (by decide) issueW2 (by decide) (by decide)
    exact h⟩

/-- C4: a successful POST /api/issues or POST /api/gaps always persists
and returns a row with status open and created_at equal to the insertion
time, regardless of any status or created_at field supplied in the
request body. -/
theorem post_forces_open (idb : List Issue) (gdb : List Gap)
    (newId now : Nat) (ib : IssueBody) (gb : GapBody) :
    (∀ db2 row, createIssue idb newId now ib = some (db2, row) →
      row.status = some "open" ∧ row.created_at = now ∧ row ∈ db2)
  ∧ (∀ db2 row, createGap gdb newId now gb = some (db2, row) →
      row.status = some "open" ∧ row.created_at = now ∧ row ∈ db2) := by
  constructor
  · intro db2 row h
    unfold createIssue at h
    split at h
    · split at h
      · rw [Option.some.injEq, Prod.mk.injEq] at h
        obtain ⟨hdb, hrow⟩ := h
        subst hdb
        subst hrow
        exact ⟨rfl, rfl, by simp⟩
      · exact absurd h (by simp)
    · exact absurd h (by simp)
  · intro db2 row h
    unfold createGap at h
    split at h
    · split at h
      · rw [Option.some.injEq, Prod.mk.injEq] at h
        obtain ⟨hdb, hrow⟩ := h
        subst hdb
        subst hrow
        exact ⟨rfl, rfl, by simp⟩
      · exact absurd h (by simp)
    · exact absurd h (by simp)

/-- Witness for C4: bodies that smuggle status hacked and created_at 99
still produce rows with status open and created_at equal to the server
time 7. -/
theorem post_forces_open_witness :
    createIssue [] 1 7 ibW = some ([issueRowW], issueRowW)
  ∧ issueRowW.status = some "open"
  ∧ issueRowW.created_at = 7
  ∧ createGap [] 1 7 gbW = some ([gapRowW], gapRowW)
  ∧ gapRowW.status = some "open"
  ∧ gapRowW.created_at = 7 :=
  ⟨by decide,
   ((post_forces_open [] [] 1 7 ibW gbW).1 [issueRowW] issueRowW
      (by decide)).1,
   ((post_forces_open [] [] 1 7 ibW gbW).1 [issueRowW] issueRowW
      (by decide)).2.1,
   by decide,
   ((post_forces_open [] [] 1 7 ibW gbW).2 [gapRowW] gapRowW
      (by decide)).1,
   ((post_forces_open [] [] 1 7 ibW gbW).2 [gapRowW] gapRowW
      (by decide)).2.1⟩

/-- The issue list handler with a status filter other than all reduces
to sorting the exact-match filter of the table. -/
theorem listIssues_filter_eq (idb : List Issue) (t : String)
    (h1 : t ≠ "all") (h2 : t ≠ "") :
    listIssues idb (some t) =
      List.insertionSort issueNewer (idb.filter fun r => r.status == some t) := by
  simp only [listIssues, effectiveStatus]
  rw [if_neg h2, if_neg h1]

/-- The gap list handler with a status filter other than all reduces to
sorting the exact-match filter of the table. -/
theorem listGaps_filter_eq (gdb : List Gap) (t : String)
    (h1 : t ≠ "all") (h2 : t ≠ "") :
    listGaps gdb (some t) =
      List.insertionSort gapNewer (gdb.filter fun r => r.status == some t) := by
  simp only [listGaps, effectiveStatus]
  rw [if_neg h2, if_neg h1]

/-- C5 counterexample: the claim quantifies over any status value other
than absent or all, and the empty string is such a value, reachable as
GET /api/issues?status= — but the or-default fallback of the handler
treats it like an absent parameter, so on the fixture table the result
is not the exact-match filter for the empty-string status (which would
be the empty array): the handler returns the open row instead. -/
theorem list_empty_status_counterexample :
    ¬ (listIssues issuesDbW (some "")).Perm
        (issuesDbW.filter fun r => r.status == some "") := by
  decide

/-- C5 amended: GET /api/issues and GET /api/gaps return, with no status
query parameter or with an empty status value (the or-default fallback
treats the empty string like an absent parameter), exactly the rows with
status open; with status all, every row; with any other non-empty status
value, exactly the rows with that status (so an unrecognized non-empty
value yields the empty array); in every case the result is ordered by
created_at descending. -/
theorem list_status_filter (idb : List Issue) (gdb : List Gap)
    (s : String) (q : Option String) :
    ((listIssues idb none).Perm (idb.filter fun r => r.status == some "open"))
  ∧ ((listIssues idb (some "")).Perm
      (idb.filter fun r => r.status == some "open"))
  ∧ ((listIssues idb (some "all")).Perm idb)
  ∧ (s ≠ "all" → s ≠ "" →
      (listIssues idb (some s)).Perm (idb.filter fun r => r.status == some s))
  ∧ (s ≠ "all" → s ≠ "" → (∀ r ∈ idb, r.status ≠ some s) →
      listIssues idb (some s) = [])
  ∧ ((listIssues idb q).Sorted issueNewer)
  ∧ ((listGaps gdb none).Perm (gdb.filter fun r => r.status == some "open"))
  ∧ ((listGaps gdb (some "")).Perm
      (gdb.filter fun r => r.status == some "open"))
  ∧ ((listGaps gdb (some "all")).Perm gdb)
  ∧ (s ≠ "all" → s ≠ "" →
      (listGaps gdb (some s)).Perm (gdb.filter fun r => r.status == some s))
  ∧ (s ≠ "all" → s ≠ "" → (∀ r ∈ gdb, r.status ≠ some s) →
      listGaps gdb (some s) = [])
  ∧ ((listGaps gdb q).Sorted gapNewer) := by
  refine ⟨?_, ?_, ?_, ?_, ?_, ?_, ?_, ?_, ?_, ?_, ?_, ?_⟩
  · have h : listIssues idb none =
        List.insertionSort issueNewer
          (idb.filter fun r => r.status == some "open") := rfl
    rw [h]
    exact List.perm_insertionSort _ _
  · have h : listIssues idb (some "") =
        List.insertionSort issueNewer
          (idb.filter fun r => r.status == some "open") := rfl
    rw [h]
    exact List.perm_insertionSort _ _
  · have h : listIssues idb (some "all") =
        List.insertionSort issueNewer idb := rfl
    rw [h]
    exact List.perm_insertionSort _ _
  · intro h1 h2
    rw [listIssues_filter_eq idb s h1 h2]
    exact List.perm_insertionSort _ _
  · intro h1 h2 hnone
    have hfil : idb.filter (fun r => r.status == some s) = [] := by
      rw [List.filter_eq_nil_iff]
      intro r hr
      simpa using hnone r hr
    rw [listIssues_filter_eq idb s h1 h2, hfil]
    rfl
  · simp only [listIssues]
    split
    · exact List.sorted_insertionSort _ _
    · exact List.sorted_insertionSort _ _
  · have h : listGaps gdb none =
        List.insertionSort gapNewer
          (gdb.filter fun r => r.status == some "open") := rfl
    rw [h]
    exact List.perm_insertionSort _ _
  · have h : listGaps gdb (some "") =
        List.insertionSort gapNewer
          (gdb.filter fun r => r.status == some "open") := rfl
    rw [h]
    exact List.perm_insertionSort _ _
  · have h : listGaps gdb (some "all") =
        List.insertionSort gapNewer gdb := rfl
    rw [h]
    exact List.perm_insertionSort _ _
  · intro h1 h2
    rw [listGaps_filter_eq gdb s h1 h2]
    exact List.perm_insertionSort _ _
  · intro h1 h2 hnone
    have hfil : gdb.filter (fun r => r.status == some s) = [] := by
      rw [List.filter_eq_nil_iff]
      intro r hr
      simpa using hnone r hr
    rw [listGaps_filter_eq gdb s h1 h2, hfil]
    rfl
  · simp only [listGaps]
    split
    · exact List.sorted_insertionSort _ _
    · exact List.sorted_insertionSort _ _

/-- Witness for C5: on the two-row issue fixture, filtering by the
unrecognized non-empty status weird yields the empty array, the
unfiltered all listing is a permutation of the table, and an empty
status value returns the open-filtered rows. -/
theorem list_status_filter_witness :
    listIssues issuesDbW (some "weird") = []
  ∧ (listIssues issuesDbW (some "all")).Perm issuesDbW
  ∧ (listIssues issuesDbW (some "")).Perm
      (issuesDbW.filter fun r => r.status == some "open")
  ∧ listGaps gapsDbW (some "weird") = [] :=
  ⟨(list_status_filter issuesDbW gapsDbW "weird" none).2.2.2.2.1
      (by decide) (by decide) (by decide),
   (list_status_filter issuesDbW gapsDbW "weird" none).2.2.1,
   (list_status_filter issuesDbW gapsDbW "weird" none).2.1,
   (list_status_filter issuesDbW gapsDbW "weird" none).2.2.2.2.2.2.2.2.2.2.1
      (by decide) (by decide) (by decide)⟩

/-- Looking a status up in the grouped counts yields nothing exactly
when no row carries that status. -/
theorem lookup_statusCounts (l : List (Option String)) (s : Option String) :
    (statusCounts l).lookup s = none ↔ ∀ x ∈ l, x ≠ s := by
  unfold statusCounts
  have h : ∀ keys : List (Option String),
      ((keys.map fun k => (k, l.count k)).lookup s) =
        if s ∈ keys then some (l.count s) else none := by
    intro keys
    induction keys with
    | nil => simp
    | cons k ks ih =>
      by_cases hk : s = k
      · subst hk
        simp [List.lookup]
      · have hbeq : (s == k) = false := beq_false_of_ne hk
        simp [List.lookup, hbeq, hk, ih]
  rw [h]
  by_cases hs : s ∈ l.dedup
  · rw [if_pos hs]
    rw [List.mem_dedup] at hs
    constructor
    · intro habs
      exact absurd habs (by simp)
    · intro hall
      exact absurd rfl (hall s hs)
  · rw [if_neg hs]
    rw [List.mem_dedup] at hs
    constructor
    · intro _ x hx hxs
      exact hs (hxs ▸ hx)
    · intro _
      rfl

/-- C6: GET /api/stats on three empty tables is exactly the object with
empty issue and gap groups, zero review total and null last review; in
general a status with zero rows is an absent key of the issues and gaps
group objects rather than a zero-valued entry. -/
theorem stats_spec (idb : List Issue) (gdb : List Gap) (rdb : List Review)
    (s : Option String) :
    apiStats [] [] [] = ⟨[], [], 0, none⟩
  ∧ ((apiStats idb gdb rdb).issues.lookup s = none ↔ ∀ r ∈ idb, r.status ≠ s)
  ∧ ((apiStats idb gdb rdb).gaps.lookup s = none ↔ ∀ r ∈ gdb, r.status ≠ s) := by
  refine ⟨rfl, ?_, ?_⟩
  · show (statusCounts (idb.map (·.status))).lookup s = none ↔ _
    rw [lookup_statusCounts]
    constructor
    · intro h r hr
      exact h _ (List.mem_map_of_mem _ hr)
    · intro h x hx
      obtain ⟨r, hr, rfl⟩ := List.mem_map.mp hx
      exact h r hr
  · show (statusCounts (gdb.map (·.status))).lookup s = none ↔ _
    rw [lookup_statusCounts]
    constructor
    · intro h r hr
      exact h _ (List.mem_map_of_mem _ hr)
    · intro h x hx
      obtain ⟨r, hr, rfl⟩ := List.mem_map.mp hx
      exact h r hr

/-- Witness for C6: the empty-database response shape, and the absence
of an unused status key on the populated fixture tables. -/
theorem stats_spec_witness :
    apiStats [] [] [] = ⟨[], [], 0, none⟩
  ∧ (apiStats issuesDbW gapsDbW reviewsDbW).issues.lookup (some "zzz") = none :=
  ⟨(stats_spec [] [] [] none).1,
   (stats_spec issuesDbW gapsDbW reviewsDbW (some "zzz")).2.1.mpr (by decide)⟩

/-- C7: GET /api/reviews/:slug always responds 200; when no review of
the slug exists the body is an explicit null; when at least one exists
the body is a single matching row whose reviewed_at is greatest among
the matches. -/
theorem review_by_slug_spec (db : List Review) (slug : String) :
    (apiReviewBySlug db slug).1 = 200
  ∧ ((∀ r ∈ db, r.doc_slug ≠ slug) → (apiReviewBySlug db slug).2 = none)
  ∧ (∀ r0 ∈ db, r0.doc_slug = slug →
      ∃ r, (apiReviewBySlug db slug).2 = some r ∧ r.doc_slug = slug ∧
        ∀ p ∈ db, p.doc_slug = slug → p.reviewed_at ≤ r.reviewed_at) := by
  refine ⟨rfl, ?_, ?_⟩
  · intro hnone
    have hfil : db.filter (fun r => r.doc_slug == slug) = [] := by
      rw [List.filter_eq_nil_iff]
      intro r hr
      simpa using hnone r hr
    show (List.insertionSort reviewNewer
      (db.filter fun r => r.doc_slug == slug)).head? = none
    rw [hfil]
    rfl
  · intro r0 hr0 hslug
    have hperm := List.perm_insertionSort reviewNewer
      (db.filter fun r => r.doc_slug == slug)
    have hsorted := List.sorted_insertionSort reviewNewer
      (db.filter fun r => r.doc_slug == slug)
    have hr0l : r0 ∈ db.filter (fun r => r.doc_slug == slug) := by
      rw [List.mem_filter]
      exact ⟨hr0, by simpa using hslug⟩
    cases hS : List.insertionSort reviewNewer
        (db.filter fun r => r.doc_slug == slug) with
    | nil =>
      rw [hS] at hperm
      have hempty := hperm.symm.eq_nil
      rw [hempty] at hr0l
      exact absurd hr0l (List.not_mem_nil r0)
    | cons r rest =>
      refine ⟨r, ?_, ?_, ?_⟩
      · show (List.insertionSort reviewNewer
          (db.filter fun r => r.doc_slug == slug)).head? = some r
        rw [hS]
        rfl
      · have hrl : r ∈ db.filter (fun r => r.doc_slug == slug) := by
          rw [← hperm.mem_iff, hS]
          exact List.mem_cons_self r rest
        rw [List.mem_filter] at hrl
        simpa using hrl.2
      · intro p hp hpslug
        have hpl : p ∈ db.filter (fun r => r.doc_slug == slug) := by
          rw [List.mem_filter]
          exact ⟨hp, by simpa using hpslug⟩
        have hpS : p ∈ r :: rest := by
          rw [← hS, hperm.mem_iff]
          exact hpl
        rcases List.mem_cons.mp hpS with heq | hprest
        · rw [heq]
        · rw [hS] at hsorted
          exact (List.pairwise_cons.mp hsorted).1 p hprest

/-- Witness for C7: the fixture table holds two reviews of the slug, and
the handler returns the more recent one; an absent slug yields the null
body with the 200 status. -/
theorem review_by_slug_spec_witness :
    (apiReviewBySlug reviewsDbW "getting-started").2 = some reviewW2
  ∧ (apiReviewBySlug reviewsDbW "absent").1 = 200
  ∧ (apiReviewBySlug reviewsDbW "absent").2 = none :=
  ⟨by decide,
   (review_by_slug_spec reviewsDbW "absent").1,
   (review_by_slug_spec reviewsDbW "absent").2.1 (by decide)⟩

/-- C8: every field accepted from a successful POST body (reviews,
issues, gaps), excluding the server-forced status, creation timestamp
and id, appears unchanged in the created row returned by the handler. -/
theorem post_round_trip (rdb : List Review) (idb : List Issue)
    (gdb : List Gap) (newId now : Nat) (rb : ReviewBody) (ib : IssueBody)
    (gb : GapBody) :
    (∀ db2 row, createReview rdb newId now rb = some (db2, row) →
      some row.doc_slug = rb.doc_slug ∧ row.doc_title = rb.doc_title ∧
      row.notes = rb.notes)
  ∧ (∀ db2 row, createIssue idb newId now ib = some (db2, row) →
      row.doc_slug = ib.doc_slug ∧ row.doc_title = ib.doc_title ∧
      some row.issue_type = ib.issue_type ∧
      some row.description = ib.description ∧
      row.suggested_fix = ib.suggested_fix)
  ∧ (∀ db2 row, createGap gdb newId now gb = some (db2, row) →
      row.ticket_id = gb.ticket_id ∧ row.ticket_subject = gb.ticket_subject ∧
      some row.description = gb.description ∧
      row.suggested_doc = gb.suggested_doc) := by
  refine ⟨?_, ?_, ?_⟩
  · intro db2 row h
    unfold createReview at h
    split at h
    · exact absurd h (by simp)
    · rename_i slug heq
      split at h
      · rw [Option.some.injEq, Prod.mk.injEq] at h
        obtain ⟨hdb, hrow⟩ := h
        subst hrow
        exact ⟨by rw [heq], rfl, rfl⟩
      · exact absurd h (by simp)
  · intro db2 row h
    unfold createIssue at h
    split at h
    · rename_i it desc heq1 heq2
      split at h
      · rw [Option.some.injEq, Prod.mk.injEq] at h
        obtain ⟨hdb, hrow⟩ := h
        subst hrow
        exact ⟨rfl, rfl, by rw [heq1], by rw [heq2], rfl⟩
      · exact absurd h (by simp)
    · exact absurd h (by simp)
  · intro db2 row h
    unfold createGap at h
    split at h
    · rename_i desc heq
      split at h
      · rw [Option.some.injEq, Prod.mk.injEq] at h
        obtain ⟨hdb, hrow⟩ := h
        subst hrow
        exact ⟨rfl, rfl, by rw [heq], rfl⟩
      · exact absurd h (by simp)
    · exact absurd h (by simp)

/-- Witness for C8: the concrete fixture bodies round-trip into the
created rows. -/
theorem post_round_trip_witness :
    createReview [] 1 7 rbW = some ([reviewRowW], reviewRowW)
  ∧ some reviewRowW.doc_slug = rbW.doc_slug
  ∧ reviewRowW.doc_title = rbW.doc_title
  ∧ reviewRowW.notes = rbW.notes
  ∧ some issueRowW.issue_type = ibW.issue_type
  ∧ some gapRowW.description = gbW.description :=
  ⟨by decide,
   ((post_round_trip [] [] [] 1 7 rbW ibW gbW).1 [reviewRowW] reviewRowW
      (by decide)).1,
   ((post_round_trip [] [] [] 1 7 rbW ibW gbW).1 [reviewRowW] reviewRowW
      (by decide)).2.1,
   ((post_round_trip [] [] [] 1 7 rbW ibW gbW).1 [reviewRowW] reviewRowW
      (by decide)).2.2,
   ((post_round_trip [] [] [] 1 7 rbW ibW gbW).2.1 [issueRowW] issueRowW
      (by decide)).2.2.1,
   ((post_round_trip [] [] [] 1 7 rbW ibW gbW).2.2 [gapRowW] gapRowW
      (by decide)).2.2.1⟩

/-- A successful CREATE TABLE IF NOT EXISTS leaves the table present and
preserves every table that already existed. -/
theorem createTable_mem (t : TableName) (ok : Bool) (db db2 : DbState)
    (h : createTableIfNotExists t ok db = some db2) :
    t ∈ db2.tables ∧ ∀ u ∈ db.tables, u ∈ db2.tables := by
  cases ok
  · exact absurd h (by simp [createTableIfNotExists])
  · unfold createTableIfNotExists at h
    rw [if_pos rfl, Option.some.injEq] at h
    subst h
    by_cases hmem : t ∈ db.tables
    · constructor
      · simp only [if_pos hmem]
        exact hmem
      · intro u hu
        simp only [if_pos hmem]
        exact hu
    · constructor
      · simp [hmem]
      · intro u hu
        simp [hmem, List.mem_append]
        exact Or.inl hu

/-- C9: app.listen runs only in the fulfilled continuation of setupDb,
so the server accepts connections only after the three CREATE TABLE
statements succeeded — the listening state has all three tables — and if
any of the three statements fails, startup yields no listening server at
all. -/
theorem startup_schema_first (okR okI okG : Bool) (db0 : DbState) :
    (∀ s, startup okR okI okG db0 = some s → s.listening = true ∧
      TableName.reviews ∈ s.db.tables ∧ TableName.issues ∈ s.db.tables ∧
      TableName.gaps ∈ s.db.tables)
  ∧ ((okR = false ∨ okI = false ∨ okG = false) →
      startup okR okI okG db0 = none) := by
  constructor
  · intro s hs
    unfold startup at hs
    cases hset : setupDb okR okI okG db0 with
    | none =>
      rw [hset] at hs
      exact absurd hs (by simp)
    | some db3 =>
      rw [hset, Option.map_some', Option.some.injEq] at hs
      subst hs
      unfold setupDb at hset
      rcases Option.bind_eq_some.mp hset with ⟨db1, hc1, hrest⟩
      rcases Option.bind_eq_some.mp hrest with ⟨dbx, hc2, hc3⟩
      obtain ⟨hr1, hmono1⟩ := createTable_mem _ _ _ _ hc1
      obtain ⟨hi2, hmono2⟩ := createTable_mem _ _ _ _ hc2
      obtain ⟨hg3, hmono3⟩ := createTable_mem _ _ _ _ hc3
      exact ⟨rfl, hmono3 _ (hmono2 _ hr1), hmono3 _ hi2, hg3⟩
  · intro hfail
    unfold startup setupDb
    rcases hfail with hf | hf | hf
    · subst hf
      simp [createTableIfNotExists]
    · subst hf
      cases okR <;> simp [createTableIfNotExists]
    · subst hf
      cases okR <;> cases okI <;> simp [createTableIfNotExists]

/-- Witness for C9: with all three statements succeeding from an empty
schema, the server listens with the three tables present; a failing
first statement yields no server. -/
theorem startup_schema_first_witness :
    startup true true true ⟨[]⟩ =
      some ⟨⟨[TableName.reviews, TableName.issues, TableName.gaps]⟩, true⟩
  ∧ (⟨⟨[TableName.reviews, TableName.issues, TableName.gaps]⟩, true⟩ :
      ServerState).listening = true
  ∧ startup false true true ⟨[]⟩ = none :=
  ⟨by decide,
   ((startup_schema_first true true true ⟨[]⟩).1
      ⟨⟨[TableName.reviews, TableName.issues, TableName.gaps]⟩, true⟩
      (by decide)).1,
   (startup_schema_first false true true ⟨[]⟩).2 (Or.inl rfl)⟩

end DocsTracker
